import Mathlib

/-!
# Shallow embedding of `src/fsquad.c`

`fsquad.c` simulates a solution of the firing squad synchronization
problem.  The per-machine record (`struct machine`, lines 133-143), the
initialization in `main` (lines 210-235), the transition routine
`update_state` (lines 357-634), the firing test and the driver loop of
`main` (lines 237-275) are embedded below.

Conventions of the embedding:
* C `int` fields that only ever hold the small enumeration constants are
  modelled as `Nat`; the `timer` field is modelled as `Int` because the
  passive-soldier decrement (line 623-624) can drive it below zero.
* The local variable `dir` of `update_state` (line 360) is declared
  without an initializer in C.  On the paths that reach line 632 without
  assigning `dir`, C stores an indeterminate value; all of those paths
  also store `NO_MSG` into `message` (line 633), so the value is never
  observable through the neighbor-visibility checks.  The embedding
  writes the out-of-range sentinel `UNDEF_DIR` there.
* Out-of-bounds neighbor reads (possible in C only if a soldier sat at
  an end of the line, which lines 210-235 and the transition rules rule
  out) are modelled by the `default` machine via `List.getD`.
-/

namespace Fsquad

/-- Color states (fsquad.c lines 108-110). -/
def RED : Nat := 0

def BLACK : Nat := 1

/-- Activity states (lines 112-114). -/
def PASSIVE : Nat := 0

def ACTIVE : Nat := 1

/-- Machine types (lines 116-118). -/
def GENERAL : Nat := 0

def SOLDIER : Nat := 1

/-- Message types (lines 120-126). -/
def NO_MSG : Nat := 0

def TEST_MSG : Nat := 1

def MID_TEST_MSG : Nat := 2

def MID_ACK_MSG : Nat := 3

def RESET_MSG : Nat := 4

def PROMOTE_MSG : Nat := 5

/-- Message directions (lines 128-131). -/
def LEFT : Nat := 0

def RIGHT : Nat := 1

def BROADCAST : Nat := 2

/-- Sentinel for the indeterminate value C stores through the
uninitialized local `dir` (line 360); deliberately none of
`LEFT`/`RIGHT`/`BROADCAST`. -/
def UNDEF_DIR : Nat := 3

def MAX_LENGTH : Nat := 1024

def DEFAULT_LENGTH : Nat := 8

/-- `struct machine` (fsquad.c lines 133-143). -/
structure Machine where
  activity : Nat
  timer : Int
  color : Nat
  type : Nat
  message_direction : Nat
  message : Nat
  testing : Bool
deriving DecidableEq, Repr

instance : Inhabited Machine :=
  ⟨{ activity := 0, timer := 0, color := 0, type := 0,
     message_direction := 0, message := 0, testing := false }⟩

/-- Read slot `i` of a machine array (out of bounds gives `default`). -/
def nth (ms : List Machine) (i : Nat) : Machine := (ms[i]?).getD default

/-- Message visible to a general from its left neighbor
(lines 372-375): guarded by `if(j)`. -/
def genLM (old : List Machine) (j : Nat) : Nat :=
  if j ≠ 0 then
    let ml := nth old (j - 1)
    if ml.message_direction = RIGHT ∨ ml.message_direction = BROADCAST then
      ml.message
    else NO_MSG
  else NO_MSG

/-- Message visible to a general from its right neighbor
(lines 376-379): guarded by `if(j<N-1)`. -/
def genRM (old : List Machine) (N j : Nat) : Nat :=
  if j < N - 1 then
    let mr := nth old (j + 1)
    if mr.message_direction = LEFT ∨ mr.message_direction = BROADCAST then
      mr.message
    else NO_MSG
  else NO_MSG

/-- Message visible to a soldier from its left neighbor (lines 423-426);
unguarded in C. -/
def solLM (old : List Machine) (j : Nat) : Nat :=
  let ml := nth old (j - 1)
  if ml.message_direction = RIGHT ∨ ml.message_direction = BROADCAST then
    ml.message
  else NO_MSG

/-- Message visible to a soldier from its right neighbor (lines 427-430);
unguarded in C. -/
def solRM (old : List Machine) (j : Nat) : Nat :=
  let mr := nth old (j + 1)
  if mr.message_direction = LEFT ∨ mr.message_direction = BROADCAST then
    mr.message
  else NO_MSG

/-- The general branch of `update_state` (fsquad.c lines 362-417 plus
the common store of lines 629-633).  `mj` is `machines_old[j]`, `lm` and
`rm` the visible neighbor messages, `ltype` and `rtype` the values
`machines[j-1]->type` and `machines[j+1]->type` that lines 411-413 read
from the current-generation array. -/
def general_update (mj : Machine) (lm rm ltype rtype : Nat) : Machine :=
  if rm = RESET_MSG ∨ lm = RESET_MSG then
    { mj with activity := PASSIVE }
  else
    let act := if mj.activity = ACTIVE then ACTIVE else PASSIVE
    if rm = MID_TEST_MSG ∧ lm = MID_TEST_MSG then
      { mj with activity := act, message_direction := BROADCAST,
                message := MID_ACK_MSG }
    else if rm = MID_TEST_MSG then
      { mj with activity := act, message_direction := RIGHT,
                message := MID_ACK_MSG }
    else if lm = MID_TEST_MSG then
      { mj with activity := act, message_direction := LEFT,
                message := MID_ACK_MSG }
    else if mj.activity = ACTIVE then
      if mj.testing = true then
        { mj with testing := false, activity := ACTIVE,
                  message_direction := BROADCAST, message := TEST_MSG }
      else if (lm = TEST_MSG ∧ ltype = SOLDIER) ∨
              (rm = TEST_MSG ∧ rtype = SOLDIER) then
        { mj with testing := true, activity := act,
                  message_direction := UNDEF_DIR, message := NO_MSG }
      else
        { mj with activity := act,
                  message_direction := UNDEF_DIR, message := NO_MSG }
    else
      { mj with activity := act,
                message_direction := UNDEF_DIR, message := NO_MSG }

/-- The active-soldier block (fsquad.c lines 502-564 plus the common
store of lines 629-633), entered when some message is visible and it is
not a Reset or Promote. -/
def soldier_active_update (mj : Machine) (lm rm : Nat) : Machine :=
  if rm = TEST_MSG ∨ lm = TEST_MSG then
    { mj with testing := true, activity := ACTIVE,
              message_direction := BROADCAST, message := MID_TEST_MSG }
  else if rm = MID_ACK_MSG then
    if lm = MID_ACK_MSG then
      { mj with type := GENERAL, color := RED, testing := true,
                activity := ACTIVE, message := RESET_MSG,
                message_direction := BROADCAST }
    else if mj.testing = false then
      { mj with activity := ACTIVE, message_direction := LEFT,
                message := MID_ACK_MSG }
    else
      { mj with activity := PASSIVE, message := NO_MSG, timer := 3,
                message_direction := UNDEF_DIR }
  else if lm = MID_ACK_MSG then
    if rm = MID_ACK_MSG then
      { mj with type := GENERAL, color := RED, testing := true,
                activity := ACTIVE, message := RESET_MSG,
                message_direction := BROADCAST }
    else if mj.testing = false then
      { mj with activity := ACTIVE, message_direction := RIGHT,
                message := MID_ACK_MSG }
    else
      { mj with activity := PASSIVE, message := NO_MSG, timer := 3,
                message_direction := UNDEF_DIR }
  else if lm ≠ NO_MSG then
    { mj with activity := ACTIVE, message_direction := RIGHT,
              message := lm }
  else
    { mj with activity := ACTIVE, message_direction := LEFT,
              message := rm }

/-- The passive-soldier block (fsquad.c lines 566-625 plus the common
store of lines 629-633): a passive soldier seeing some message other
than a reset.  Every branch falls through line 623: if the old timer is
nonzero, the timer value the branch left behind is decremented. -/
def soldier_passive_update (mj : Machine) (lm rm : Nat) : Machine :=
  let dec : Int → Int := fun t => if mj.timer ≠ 0 then t - 1 else t
  if mj.testing = true ∧ rm = MID_ACK_MSG then
    if mj.timer ≥ 1 then
      { mj with message := PROMOTE_MSG, message_direction := RIGHT,
                testing := false, timer := dec 0, activity := PASSIVE }
    else
      { mj with message := TEST_MSG, message_direction := LEFT,
                testing := false, timer := dec mj.timer,
                activity := PASSIVE }
  else if mj.testing = true ∧ lm = MID_ACK_MSG then
    if mj.timer ≥ 1 then
      { mj with message := PROMOTE_MSG, message_direction := LEFT,
                testing := false, timer := dec 0, activity := PASSIVE }
    else
      { mj with message := TEST_MSG, message_direction := RIGHT,
                testing := false, timer := dec mj.timer,
                activity := PASSIVE }
  else if lm ≠ NO_MSG then
    { mj with message_direction := RIGHT, message := lm,
              timer := dec mj.timer, activity := PASSIVE }
  else
    { mj with message_direction := LEFT, message := rm,
              timer := dec mj.timer, activity := PASSIVE }

/-- The soldier branch of `update_state` (fsquad.c lines 419-627 plus
the common store of lines 629-633). -/
def soldier_update (mj : Machine) (lm rm : Nat) : Machine :=
  if lm = PROMOTE_MSG then
    { mj with type := GENERAL, color := RED, activity := ACTIVE,
              testing := true, message := RESET_MSG,
              message_direction := RIGHT }
  else if rm = PROMOTE_MSG then
    { mj with type := GENERAL, color := RED, activity := ACTIVE,
              testing := true, message := RESET_MSG,
              message_direction := LEFT }
  else if mj.message = PROMOTE_MSG then
    { mj with type := GENERAL, color := RED, activity := ACTIVE,
              testing := true, message := RESET_MSG, timer := 0,
              message_direction :=
                if mj.message_direction = RIGHT then LEFT else RIGHT }
  else if rm = NO_MSG ∧ lm = NO_MSG then
    { mj with message := NO_MSG,
              timer := if mj.timer ≠ 0 then mj.timer - 1 else mj.timer }
  else if lm = RESET_MSG ∨ rm = RESET_MSG then
    { mj with activity := ACTIVE, message := RESET_MSG,
              message_direction := if lm = RESET_MSG then RIGHT else LEFT }
  else if mj.activity = ACTIVE then
    soldier_active_update mj lm rm
  else
    soldier_passive_update mj lm rm

/-- `update_state(j)` (fsquad.c lines 357-634).  `old` is the
`machines_old` array, `cur` the `machines` array as already mutated by
the updates of positions `0..j-1` of the same step (only the branch at
lines 411-413 reads it, through `machines[j-1]->type` and
`machines[j+1]->type`).  Fields the C code leaves untouched keep their
prior value `nth old j` (the step starts by copying `machines` into
`machines_old`, lines 247-248). -/
def update_state (old cur : List Machine) (N j : Nat) : Machine :=
  if (nth old j).type = GENERAL then
    general_update (nth old j) (genLM old j) (genRM old N j)
      (nth cur (j - 1)).type (nth cur (j + 1)).type
  else
    soldier_update (nth old j) (solLM old j) (solRM old j)

/-- The first `k` iterations of the update loop
`for(j=0;j<N;j++)update_state(j);` (line 253): positions `0..k-1` have
been overwritten in place, starting from the copy of `old`. -/
def stepIter (old : List Machine) (N : Nat) : Nat → List Machine
  | 0 => old
  | k + 1 => (stepIter old N k).set k (update_state old (stepIter old N k) N k)

/-- One full synchronous step of the driver, exactly as the C loop body
executes it (copy `machines` to `machines_old`, then update positions
`0..N-1` in increasing order, in place). -/
def stepCode (N : Nat) (old : List Machine) : List Machine :=
  stepIter old N N

/-- The step the spec describes: every position is updated from the
prior-generation snapshot alone (both arrays passed to `update_state`
are the old snapshot). -/
def stepPure (N : Nat) (old : List Machine) : List Machine :=
  (List.range N).map (fun j => update_state old old N j)

/-- Initial state of machine `i` (lines 212-235).  For `N = 1` the
assignment to `machines[N-1]` overwrites the one to `machines[0]`, which
the `i = N - 1` test being first reproduces. -/
def initMachine (N i : Nat) : Machine :=
  if i = N - 1 then
    { activity := PASSIVE, timer := 0, color := RED, type := GENERAL,
      message_direction := LEFT, message := NO_MSG, testing := false }
  else if i = 0 then
    { activity := ACTIVE, timer := 0, color := RED, type := GENERAL,
      message_direction := RIGHT, message := NO_MSG, testing := true }
  else
    { activity := ACTIVE, timer := 0, color := BLACK, type := SOLDIER,
      message_direction := BROADCAST, message := NO_MSG, testing := false }

def initMachines (N : Nat) : List Machine :=
  (List.range N).map (initMachine N)

/-- The snapshot after `t` full synchronous steps of the C loop. -/
def snapRun (N t : Nat) : List Machine :=
  (stepCode N)^[t] (initMachines N)

/-- C logical negation: `!x` (1 when `x` is zero, else 0). -/
def cNot (x : Nat) : Nat := if x = 0 then 1 else 0

/-- The firing test of lines 259-264: `fire` stays `TRUE` unless some
machine satisfies `!machines[j]->color == RED`, which by C precedence is
`(!color) == RED`, i.e. `color != 0`. -/
def fireCond (ms : List Machine) : Bool :=
  ms.all (fun m => if cNot m.color = RED then false else true)

/-- Outcome of the driver loop: `BANG` with the step counter `t`, or the
step-cap break with the counter value it reports. -/
inductive DriverResult
  | fired (t : Nat)
  | capped (t : Nat)
deriving DecidableEq, Repr

/-- The driver loop of `main` (lines 241-272), fuelled.  One recursion
unfolding is one iteration of the C `while(TRUE)` loop: break when
`maxsteps == 0`, otherwise snapshot + update, break with `fired` if the
firing test holds, else `t++` and `if(maxsteps > 0)maxsteps--`. -/
def runLoop (N : Nat) : Nat → List Machine → Int → Nat → Option DriverResult
  | 0, _, _, _ => none
  | fuel + 1, ms, maxsteps, t =>
    if maxsteps = 0 then some (DriverResult.capped t)
    else
      let ms2 := stepCode N ms
      if fireCond ms2 then some (DriverResult.fired t)
      else
        runLoop N fuel ms2
          (if maxsteps > 0 then maxsteps - 1 else maxsteps) (t + 1)

/-- Result of `main` after option processing: the length check of lines
195-198 either rejects `N`, or the machines are instantiated and the
loop runs. -/
inductive MainResult
  | configError
  | ran (r : Option DriverResult)
deriving DecidableEq, Repr

/-- `main` from the sanity check onward (lines 193-274): `n` is the
requested length, `maxsteps` the `-t` value (`-1` when absent). -/
def fsMain (n : Int) (maxsteps : Int) (fuel : Nat) : MainResult :=
  if n ≤ 0 ∨ n > (MAX_LENGTH : Int) then MainResult.configError
  else MainResult.ran (runLoop n.toNat fuel (initMachines n.toNat) maxsteps 1)

/-- A four-machine configuration (generals at both ends, two soldiers
between) in which the soldier at position 1 carries a pending Promote
toward position 2 while the soldier at position 2 carries a pending Test
toward the active general at position 3.  Position 2's same-step
promotion is then visible to position 3's update through the
current-generation type read of line 411. -/
def mixedReadState : List Machine :=
  [{ activity := PASSIVE, timer := 0, color := RED, type := GENERAL,
     message_direction := LEFT, message := NO_MSG, testing := false },
   { activity := PASSIVE, timer := 0, color := BLACK, type := SOLDIER,
     message_direction := RIGHT, message := PROMOTE_MSG, testing := false },
   { activity := PASSIVE, timer := 0, color := BLACK, type := SOLDIER,
     message_direction := RIGHT, message := TEST_MSG, testing := false },
   { activity := ACTIVE, timer := 0, color := RED, type := GENERAL,
     message_direction := LEFT, message := NO_MSG, testing := false }]

/-- A two-general configuration in which the right machine has a
pending Reset directed left, visible to the left general. -/
def resetDemoState : List Machine :=
  [{ activity := ACTIVE, timer := 0, color := RED, type := GENERAL,
     message_direction := RIGHT, message := MID_ACK_MSG, testing := false },
   { activity := PASSIVE, timer := 0, color := RED, type := GENERAL,
     message_direction := LEFT, message := RESET_MSG, testing := false }]

/-! ## Structural lemmas about the in-place update loop -/

theorem stepIter_length (old : List Machine) (N k : Nat) :
    (stepIter old N k).length = old.length := by
  induction k with
  | zero => rfl
  | succ k ih => simpa [stepIter] using ih

theorem stepIter_getElem?_ge (old : List Machine) (N : Nat) :
    ∀ k j, k ≤ j → (stepIter old N k)[j]? = old[j]? := by
  intro k
  induction k with
  | zero => intro j _; rfl
  | succ k ih =>
    intro j hj
    show ((stepIter old N k).set k _)[j]? = _
    rw [List.getElem?_set_ne (by omega)]
    exact ih j (by omega)

theorem stepIter_getElem?_lt (old : List Machine) (N : Nat) :
    ∀ k j, j < k → j < old.length →
      (stepIter old N k)[j]? = some (update_state old (stepIter old N j) N j) := by
  intro k
  induction k with
  | zero => intro j hj _; exact absurd hj (Nat.not_lt_zero j)
  | succ k ih =>
    intro j hj hl
    rcases Nat.lt_succ_iff_lt_or_eq.mp hj with h | h
    · show ((stepIter old N k).set k _)[j]? = _
      rw [List.getElem?_set_ne (by omega)]
      exact ih j h hl
    · subst h
      show ((stepIter old N j).set j _)[j]? = _
      rw [List.getElem?_set_eq_of_lt _ (by rw [stepIter_length]; exact hl)]

/-- In-range positions of the step hold the update computed from the
partially rewritten array of their own iteration. -/
theorem nth_stepCode (N : Nat) (old : List Machine) (j : Nat)
    (hj : j < N) (hl : j < old.length) :
    nth (stepCode N old) j = update_state old (stepIter old N j) N j := by
  unfold stepCode nth
  rw [stepIter_getElem?_lt old N N j hj hl]
  rfl

theorem nth_stepCode_ge (N : Nat) (old : List Machine) (j : Nat) (hj : N ≤ j) :
    nth (stepCode N old) j = nth old j := by
  unfold stepCode nth
  rw [stepIter_getElem?_ge old N N j hj]

theorem stepCode_length (N : Nat) (old : List Machine) :
    (stepCode N old).length = old.length :=
  stepIter_length old N N

theorem initMachines_length (N : Nat) : (initMachines N).length = N := by
  simp [initMachines]

theorem snapRun_length (N t : Nat) : (snapRun N t).length = N := by
  induction t with
  | zero => exact initMachines_length N
  | succ t ih =>
    rw [snapRun, Function.iterate_succ_apply']
    rw [stepCode_length]
    exact ih

theorem nth_initMachines (N i : Nat) (h : i < N) :
    nth (initMachines N) i = initMachine N i := by
  unfold nth initMachines
  rw [List.getElem?_map, List.getElem?_range h]
  rfl

/-- Every slot of any list is an element of it or the `default`
out-of-range machine. -/
theorem nth_mem_or_default (ms : List Machine) (i : Nat) :
    nth ms i ∈ ms ∨ nth ms i = default := by
  by_cases h : i < ms.length
  · left
    unfold nth
    rw [List.getElem?_eq_getElem h]
    exact ms.getElem_mem h
  · right
    unfold nth
    rw [List.getElem?_eq_none (by omega)]
    rfl

/-- Any element of the array produced by the update loop is an element
of the old array or the result of one position's update. -/
theorem stepIter_mem (old : List Machine) (N : Nat) :
    ∀ k, ∀ m ∈ stepIter old N k,
      m ∈ old ∨ ∃ i, m = update_state old (stepIter old N i) N i := by
  intro k
  induction k with
  | zero => intro m hm; exact Or.inl hm
  | succ k ih =>
    intro m hm
    rcases List.mem_or_eq_of_mem_set hm with h | h
    · exact ih m h
    · exact Or.inr ⟨k, h⟩

/-! ## Per-field behavior of one update -/

theorem general_update_color (mj : Machine) (lm rm lt rt : Nat) :
    (general_update mj lm rm lt rt).color = mj.color := by
  unfold general_update
  dsimp only
  repeat' split
  all_goals rfl

theorem soldier_active_update_color (mj : Machine) (lm rm : Nat) :
    (soldier_active_update mj lm rm).color = mj.color ∨
    (soldier_active_update mj lm rm).color = RED := by
  unfold soldier_active_update
  repeat' split
  all_goals first | exact Or.inl rfl | exact Or.inr rfl

theorem soldier_passive_update_color (mj : Machine) (lm rm : Nat) :
    (soldier_passive_update mj lm rm).color = mj.color := by
  unfold soldier_passive_update
  dsimp only
  repeat' split
  all_goals rfl

theorem soldier_update_color (mj : Machine) (lm rm : Nat) :
    (soldier_update mj lm rm).color = mj.color ∨
    (soldier_update mj lm rm).color = RED := by
  unfold soldier_update
  repeat' split
  all_goals
    first
      | exact soldier_active_update_color mj lm rm
      | exact Or.inl (soldier_passive_update_color mj lm rm)
      | exact Or.inl rfl
      | exact Or.inr rfl

/-- One update leaves a machine's color alone or makes it `RED`; in
particular no update turns `RED` into `BLACK`. -/
theorem update_state_color (old cur : List Machine) (N j : Nat) :
    (update_state old cur N j).color = (nth old j).color ∨
    (update_state old cur N j).color = RED := by
  unfold update_state
  split
  · exact Or.inl (general_update_color _ _ _ _ _)
  · exact soldier_update_color _ _ _

theorem general_update_type (mj : Machine) (lm rm lt rt : Nat) :
    (general_update mj lm rm lt rt).type = mj.type := by
  unfold general_update
  dsimp only
  repeat' split
  all_goals rfl

theorem soldier_active_update_type (mj : Machine) (lm rm : Nat) :
    (soldier_active_update mj lm rm).type = mj.type ∨
    (soldier_active_update mj lm rm).type = GENERAL := by
  unfold soldier_active_update
  repeat' split
  all_goals first | exact Or.inl rfl | exact Or.inr rfl

theorem soldier_passive_update_type (mj : Machine) (lm rm : Nat) :
    (soldier_passive_update mj lm rm).type = mj.type := by
  unfold soldier_passive_update
  dsimp only
  repeat' split
  all_goals rfl

theorem soldier_update_type (mj : Machine) (lm rm : Nat) :
    (soldier_update mj lm rm).type = mj.type ∨
    (soldier_update mj lm rm).type = GENERAL := by
  unfold soldier_update
  repeat' split
  all_goals
    first
      | exact soldier_active_update_type mj lm rm
      | exact Or.inl (soldier_passive_update_type mj lm rm)
      | exact Or.inl rfl
      | exact Or.inr rfl

/-- One update leaves a machine's type alone or makes it `GENERAL`; the
code never assigns `SOLDIER` after initialization. -/
theorem update_state_type (old cur : List Machine) (N j : Nat) :
    (update_state old cur N j).type = (nth old j).type ∨
    (update_state old cur N j).type = GENERAL := by
  unfold update_state
  split
  · exact Or.inl (general_update_type _ _ _ _ _)
  · exact soldier_update_type _ _ _


theorem general_update_timer (mj : Machine) (lm rm lt rt : Nat) :
    (general_update mj lm rm lt rt).timer = mj.timer := by
  unfold general_update
  dsimp only
  repeat' split
  all_goals rfl

theorem soldier_active_update_timer (mj : Machine) (lm rm : Nat) :
    (soldier_active_update mj lm rm).timer = mj.timer ∨
    (soldier_active_update mj lm rm).timer = 3 := by
  unfold soldier_active_update
  repeat' split
  all_goals first | exact Or.inl rfl | exact Or.inr rfl

theorem soldier_passive_update_timer (mj : Machine) (lm rm : Nat) :
    (soldier_passive_update mj lm rm).timer = mj.timer ∨
    (mj.timer ≠ 0 ∧ (soldier_passive_update mj lm rm).timer = mj.timer - 1) ∨
    (soldier_passive_update mj lm rm).timer = 0 ∨
    (1 ≤ mj.timer ∧ (soldier_passive_update mj lm rm).timer = -1) := by
  unfold soldier_passive_update
  dsimp only
  repeat' split
  all_goals try dsimp only
  all_goals omega

theorem soldier_update_timer (mj : Machine) (lm rm : Nat) :
    (soldier_update mj lm rm).timer = mj.timer ∨
    (mj.timer ≠ 0 ∧ (soldier_update mj lm rm).timer = mj.timer - 1) ∨
    (soldier_update mj lm rm).timer = 0 ∨
    (soldier_update mj lm rm).timer = 3 ∨
    (1 ≤ mj.timer ∧ (soldier_update mj lm rm).timer = -1) := by
  unfold soldier_update
  repeat' split
  all_goals try dsimp only
  all_goals
    first
      | omega
      | (rcases soldier_active_update_timer mj lm rm with h | h <;> omega)
      | (rcases soldier_passive_update_timer mj lm rm with h | h | h | h <;> omega)

theorem update_state_timer (old cur : List Machine) (N j : Nat) :
    (update_state old cur N j).timer = (nth old j).timer ∨
    ((nth old j).timer ≠ 0 ∧
      (update_state old cur N j).timer = (nth old j).timer - 1) ∨
    (update_state old cur N j).timer = 0 ∨
    (update_state old cur N j).timer = 3 ∨
    (1 ≤ (nth old j).timer ∧ (update_state old cur N j).timer = -1) := by
  unfold update_state
  split
  · exact Or.inl (general_update_timer _ _ _ _ _)
  · exact soldier_update_timer _ _ _


/-! ## Reachable-state invariants -/

theorem initMachine_color (N i : Nat) :
    (initMachine N i).color = RED ∨ (initMachine N i).color = BLACK := by
  unfold initMachine
  repeat' split
  all_goals first | exact Or.inl rfl | exact Or.inr rfl

theorem initMachine_timer (N i : Nat) : (initMachine N i).timer = 0 := by
  unfold initMachine
  repeat' split
  all_goals rfl

theorem color_step (N : Nat) (ms : List Machine)
    (h : ∀ m ∈ ms, m.color = RED ∨ m.color = BLACK) :
    ∀ m ∈ stepCode N ms, m.color = RED ∨ m.color = BLACK := by
  intro m hm
  rcases stepIter_mem ms N N m hm with hmem | ⟨i, rfl⟩
  · exact h m hmem
  · rcases update_state_color ms (stepIter ms N i) N i with hc | hc
    · rw [hc]
      rcases nth_mem_or_default ms i with hi | hi
      · exact h _ hi
      · rw [hi]; exact Or.inl rfl
    · rw [hc]; exact Or.inl rfl

/-- Every machine of every reachable snapshot is `RED` or `BLACK`. -/
theorem snapRun_color (N t : Nat) :
    ∀ m ∈ snapRun N t, m.color = RED ∨ m.color = BLACK := by
  induction t with
  | zero =>
    intro m hm
    rw [snapRun, Function.iterate_zero_apply] at hm
    rcases List.mem_map.mp hm with ⟨i, _, rfl⟩
    exact initMachine_color N i
  | succ t ih =>
    rw [snapRun, Function.iterate_succ_apply']
    exact color_step N _ ih

theorem timer_le_step (N : Nat) (ms : List Machine)
    (h : ∀ m ∈ ms, m.timer ≤ 3) :
    ∀ m ∈ stepCode N ms, m.timer ≤ 3 := by
  intro m hm
  rcases stepIter_mem ms N N m hm with hmem | ⟨i, rfl⟩
  · exact h m hmem
  · have hold : (nth ms i).timer ≤ 3 := by
      rcases nth_mem_or_default ms i with hi | hi
      · exact h _ hi
      · rw [hi]; decide
    rcases update_state_timer ms (stepIter ms N i) N i with hc | hc | hc | hc | hc
    all_goals omega

/-- Every machine of every reachable snapshot has `timer ≤ 3`. -/
theorem snapRun_timer_le (N t : Nat) : ∀ m ∈ snapRun N t, m.timer ≤ 3 := by
  induction t with
  | zero =>
    intro m hm
    rw [snapRun, Function.iterate_zero_apply] at hm
    rcases List.mem_map.mp hm with ⟨i, _, rfl⟩
    rw [initMachine_timer]
    decide
  | succ t ih =>
    rw [snapRun, Function.iterate_succ_apply']
    exact timer_le_step N _ ih

/-- The two end positions hold machines of type `GENERAL` in every
reachable snapshot. -/
theorem endpoints_general (N t : Nat) (hN : 1 ≤ N) :
    (nth (snapRun N t) 0).type = GENERAL ∧
    (nth (snapRun N t) (N - 1)).type = GENERAL := by
  induction t with
  | zero =>
    rw [snapRun, Function.iterate_zero_apply]
    rw [nth_initMachines N 0 (by omega), nth_initMachines N (N - 1) (by omega)]
    constructor
    · unfold initMachine
      repeat' split
      all_goals first | rfl | (exfalso; omega)
    · unfold initMachine
      rw [if_pos rfl]
  | succ t ih =>
    have hup : ∀ j, j < N →
        nth (snapRun N (t + 1)) j =
          update_state (snapRun N t) (stepIter (snapRun N t) N j) N j := by
      intro j hj
      rw [snapRun, Function.iterate_succ_apply']
      exact nth_stepCode N _ j hj
        (by rw [show (stepCode N)^[t] (initMachines N) = snapRun N t from rfl,
                snapRun_length]; exact hj)
    constructor
    · rw [hup 0 (by omega)]
      rcases update_state_type (snapRun N t) (stepIter (snapRun N t) N 0) N 0 with h | h
      · rw [h]; exact ih.1
      · exact h
    · rw [hup (N - 1) (by omega)]
      rcases update_state_type (snapRun N t) (stepIter (snapRun N t) N (N - 1)) N (N - 1) with h | h
      · rw [h]; exact ih.2
      · exact h

/-! ## The firing test and the driver loop -/

/-- The C test `!machines[j]->color == RED` of line 261 computes, for
the whole array, exactly "every machine is RED". -/
theorem fireCond_iff (ms : List Machine) :
    fireCond ms = true ↔ ∀ m ∈ ms, m.color = RED := by
  unfold fireCond
  rw [List.all_eq_true]
  constructor
  · intro h m hm
    have hx := h m hm
    by_cases hc : m.color = 0
    · exact hc
    · exfalso
      simp only [cNot, RED, if_neg hc] at hx
      simp at hx
  · intro h m hm
    rw [h m hm]
    decide

/-- The step counter reported by a `fired` outcome is at least the
counter the loop was entered with. -/
theorem runLoop_fired_ge (N : Nat) :
    ∀ fuel ms cap t t',
      runLoop N fuel ms cap t = some (DriverResult.fired t') → t ≤ t' := by
  intro fuel
  induction fuel with
  | zero =>
    intro ms cap t t' h
    simp [runLoop] at h
  | succ fuel ih =>
    intro ms cap t t' h
    rw [runLoop] at h
    split at h
    · simp at h
    · dsimp only at h
      split at h
      · simp at h
        omega
      · have := ih _ _ _ _ h
        omega


/-! ## Congruence of one update in its inputs -/

theorem genLM_congr (old old' : List Machine) (j : Nat)
    (h : nth old (j - 1) = nth old' (j - 1)) : genLM old j = genLM old' j := by
  unfold genLM
  rw [h]

theorem genRM_congr (old old' : List Machine) (N j : Nat)
    (h : nth old (j + 1) = nth old' (j + 1)) :
    genRM old N j = genRM old' N j := by
  unfold genRM
  rw [h]

theorem solLM_congr (old old' : List Machine) (j : Nat)
    (h : nth old (j - 1) = nth old' (j - 1)) : solLM old j = solLM old' j := by
  unfold solLM
  rw [h]

theorem solRM_congr (old old' : List Machine) (j : Nat)
    (h : nth old (j + 1) = nth old' (j + 1)) : solRM old j = solRM old' j := by
  unfold solRM
  rw [h]

/-- Claim C1 (amended): the update of position `j` reads, from the
prior-generation snapshot, exactly the machines at `j-1`, `j`, `j+1`
and, from the current-generation array, exactly the `type` fields of
`j-1` and `j+1` (the reads of fsquad.c lines 411-413); moreover, inside
the left-to-right update loop the current-generation entry at `j+1` is
still untouched when position `j` updates, so only a same-step `type`
change of the LEFT neighbor is observable. -/
theorem C1_read_discipline :
    (∀ old old' cur cur' : List Machine, ∀ N j : Nat,
       nth old (j - 1) = nth old' (j - 1) →
       nth old j = nth old' j →
       nth old (j + 1) = nth old' (j + 1) →
       (nth cur (j - 1)).type = (nth cur' (j - 1)).type →
       (nth cur (j + 1)).type = (nth cur' (j + 1)).type →
       update_state old cur N j = update_state old' cur' N j) ∧
    (∀ old : List Machine, ∀ N j : Nat,
       nth (stepIter old N j) (j + 1) = nth old (j + 1)) := by
  constructor
  · intro old old' cur cur' N j h1 h2 h3 h4 h5
    unfold update_state
    rw [genLM_congr old old' j h1, genRM_congr old old' N j h3,
        solLM_congr old old' j h1, solRM_congr old old' j h3, h2, h4, h5]
  · intro old N j
    unfold nth
    rw [stepIter_getElem?_ge old N j (j + 1) (by omega)]

/-- Claim C1 witness: a concrete application of the congruence at
`N = 3`, `j = 1`, with two distinct current-generation arrays agreeing
on the neighbor types. -/
theorem C1_read_discipline_witness :
    update_state (initMachines 3) (initMachines 3) 3 1 =
    update_state (initMachines 3) (snapRun 3 1) 3 1 :=
  C1_read_discipline.1 (initMachines 3) (initMachines 3) (initMachines 3)
    (snapRun 3 1) 3 1 (by decide) (by decide) (by decide) (by decide)
    (by decide)

/-- Claim C1 counterexample: the claim as stated — one synchronous step
computes at every position the same result as an update that reads only
the prior-generation snapshot — is false: in `mixedReadState` the
general at position 3 observes the type its left neighbor was given by
that neighbor's update earlier in the same step, and ends the step with
a different `testing` flag than the pure-snapshot update produces. -/
theorem C1_counterexample :
    stepCode 4 mixedReadState ≠ stepPure 4 mixedReadState ∧
    mixedReadState.length = 4 := by
  constructor
  · decide
  · decide

/-- Claim C2: the driver declares firing, and stops the loop, after a
step exactly when every machine of the freshly computed snapshot has
`color = RED`; the termination test of lines 259-264 is exactly the
pure all-red predicate, despite its `!color == RED` spelling. -/
theorem C2_fire_detector :
    (∀ ms : List Machine, fireCond ms = true ↔ ∀ m ∈ ms, m.color = RED) ∧
    (∀ N fuel : Nat, ∀ ms : List Machine, ∀ cap : Int, ∀ t : Nat,
       runLoop N (fuel + 1) ms cap t = some (DriverResult.fired t) ↔
       (¬cap = 0 ∧ fireCond (stepCode N ms) = true)) := by
  constructor
  · exact fireCond_iff
  · intro N fuel ms cap t
    constructor
    · intro h
      rw [runLoop] at h
      by_cases h0 : cap = 0
      · rw [if_pos h0] at h
        exact absurd h (by simp)
      · rw [if_neg h0] at h
        dsimp only at h
        by_cases hf : fireCond (stepCode N ms) = true
        · exact ⟨h0, hf⟩
        · rw [if_neg hf] at h
          have := runLoop_fired_ge N fuel _ _ _ _ h
          omega
    · rintro ⟨h0, hf⟩
      rw [runLoop, if_neg h0]
      dsimp only
      rw [if_pos hf]

/-- Claim C4: color is monotone along every run — a machine red in some
reachable snapshot is red in every later snapshot (no update ever turns
`RED` back into `BLACK`). -/
theorem C4_color_monotone (N t t' j : Nat) (hle : t ≤ t')
    (h : (nth (snapRun N t) j).color = RED) :
    (nth (snapRun N t') j).color = RED := by
  have step : ∀ ms : List Machine,
      (nth ms j).color = RED → (nth (stepCode N ms) j).color = RED := by
    intro ms hred
    by_cases hj : j < N
    · by_cases hl : j < ms.length
      · rw [nth_stepCode N ms j hj hl]
        rcases update_state_color ms (stepIter ms N j) N j with hc | hc
        · rw [hc]; exact hred
        · exact hc
      · have : (stepCode N ms)[j]? = none :=
          List.getElem?_eq_none (by rw [stepCode_length]; omega)
        unfold nth
        rw [this]
        rfl
    · rw [nth_stepCode_ge N ms j (by omega)]
      exact hred
  obtain ⟨d, rfl⟩ := Nat.le.dest hle
  clear hle
  induction d with
  | zero => exact h
  | succ d ih =>
    have : t + (d + 1) = (t + d) + 1 := by omega
    rw [this, snapRun, Function.iterate_succ_apply']
    exact step _ ih

/-- Claim C4 witness: the left general is red initially and still red
two steps later in the `N = 3` run. -/
theorem C4_color_monotone_witness : (nth (snapRun 3 2) 0).color = RED :=
  C4_color_monotone 3 0 2 0 (by omega) (by decide)

/-- Claim C5: a general that receives a Reset from either side becomes
passive and nothing else: the update returns immediately (lines
383-386), producing no new outgoing message and leaving every other
field — including the previously pending message — unchanged. -/
theorem C5_general_reset_shortcircuit (old cur : List Machine) (N j : Nat)
    (hg : (nth old j).type = GENERAL)
    (hr : genRM old N j = RESET_MSG ∨ genLM old j = RESET_MSG) :
    update_state old cur N j = { nth old j with activity := PASSIVE } := by
  unfold update_state
  rw [if_pos hg]
  unfold general_update
  rw [if_pos hr]

/-- Claim C5 witness: in `resetDemoState` the left general sees the
Reset pending at its right neighbor and its update only flips activity
to passive, keeping its own pending `MID_ACK` message in place. -/
theorem C5_general_reset_shortcircuit_witness :
    update_state resetDemoState resetDemoState 2 0 =
      { nth resetDemoState 0 with activity := PASSIVE } :=
  C5_general_reset_shortcircuit resetDemoState resetDemoState 2 0
    (by decide) (Or.inl (by decide))


/-- Claim C3 (amended, restricted to `3 ≤ N`): whenever the termination
detector first returns true — say at step `T ≥ 1`, having been false at
every earlier post-step check — every machine of snapshot `T` is red,
the immediately preceding snapshot still contains a black machine, and
no earlier checked snapshot was all red.  (For `N = 1` and `N = 2` the
initial line consists of the two red generals only, so the preceding
snapshot has no black machine; see the counterexample.) -/
theorem C3_first_fire (N T : Nat) (hN : 3 ≤ N) (_hM : N ≤ MAX_LENGTH)
    (hT : 1 ≤ T) (hfire : fireCond (snapRun N T) = true)
    (hfirst : ∀ t, 1 ≤ t → t < T → fireCond (snapRun N t) = false) :
    (∀ m ∈ snapRun N T, m.color = RED) ∧
    (∃ m ∈ snapRun N (T - 1), m.color = BLACK) ∧
    (∀ t, 1 ≤ t → t < T → ¬∀ m ∈ snapRun N t, m.color = RED) := by
  have notred : ∀ t, 1 ≤ t → t < T → ¬∀ m ∈ snapRun N t, m.color = RED := by
    intro t h1 h2 hall
    have := (fireCond_iff (snapRun N t)).mpr hall
    rw [hfirst t h1 h2] at this
    exact Bool.noConfusion this
  refine ⟨(fireCond_iff (snapRun N T)).mp hfire, ?_, notred⟩
  by_cases hT1 : T = 1
  · subst hT1
    refine ⟨initMachine N 1, ?_, ?_⟩
    · show initMachine N 1 ∈ snapRun N 0
      rw [snapRun, Function.iterate_zero_apply]
      exact List.mem_map.mpr ⟨1, List.mem_range.mpr (by omega), rfl⟩
    · unfold initMachine
      rw [if_neg (by omega), if_neg (by omega)]
  · have hnot := notred (T - 1) (by omega) (by omega)
    push_neg at hnot
    obtain ⟨m, hm, hne⟩ := hnot
    rcases snapRun_color N (T - 1) m hm with hc | hc
    · exact absurd hc hne
    · exact ⟨m, hm, hc⟩

/-- Claim C3 witness: the `N = 3` run first fires at step 4; the
conclusion is obtained by applying the amended theorem there. -/
theorem C3_first_fire_witness :
    (∀ m ∈ snapRun 3 4, m.color = RED) ∧
    (∃ m ∈ snapRun 3 3, m.color = BLACK) ∧
    (∀ t, 1 ≤ t → t < 4 → ¬∀ m ∈ snapRun 3 t, m.color = RED) :=
  C3_first_fire 3 4 (by omega) (by norm_num [MAX_LENGTH]) (by omega)
    (by decide)
    (by intro t h1 h2; interval_cases t <;> decide)

/-- Claim C3 counterexample: for the supported length `N = 1` the
detector is already true at its very first evaluation (step 1), yet the
immediately preceding snapshot — the initial one — contains no black
machine, contradicting the claim for every supported `N`. -/
theorem C3_counterexample :
    fireCond (snapRun 1 1) = true ∧
    ¬∃ m ∈ snapRun 1 0, m.color = BLACK := by
  constructor
  · decide
  · decide

/-- Claim C6 (amended): every reachable timer is at most 3, and one
update changes a timer only by leaving it, decrementing a nonzero one by
one, assigning 0 or 3, or — in the promote-emitting passive branch,
which requires a positive timer, assigns 0 and then still applies the
old-timer-guarded decrement — leaving `-1`. -/
theorem C6_timer_discipline :
    (∀ N t : Nat, ∀ m ∈ snapRun N t, m.timer ≤ 3) ∧
    (∀ old cur : List Machine, ∀ N j : Nat,
       (update_state old cur N j).timer = (nth old j).timer ∨
       ((nth old j).timer ≠ 0 ∧
         (update_state old cur N j).timer = (nth old j).timer - 1) ∨
       (update_state old cur N j).timer = 0 ∨
       (update_state old cur N j).timer = 3 ∨
       (1 ≤ (nth old j).timer ∧ (update_state old cur N j).timer = -1)) :=
  ⟨snapRun_timer_le, update_state_timer⟩

/-- Claim C6 witness: the bound applied to the machine that sits at
position 1 of the `N = 4` run after six steps. -/
theorem C6_timer_discipline_witness :
    (nth (snapRun 4 6) 1).timer ≤ 3 :=
  C6_timer_discipline.1 4 6 (nth (snapRun 4 6) 1) (by decide)

/-- Claim C6 counterexample: in the `N = 4` run the soldier at position
1 emits the Promote at step 6 and its timer ends that step at `-1`,
outside the claimed non-negative range `0‥3`. -/
theorem C6_counterexample :
    (nth (snapRun 4 6) 1).timer = -1 ∧
    ¬0 ≤ (nth (snapRun 4 6) 1).timer := by
  constructor
  · decide
  · decide

/-- Claim C7 (amended): a negative (or, in the program, absent, since
the default is `-1`) step cap never stops the driver loop — only the
firing condition can.  A cap of exactly 0, although non-positive, stops
the loop before any step; see the counterexample. -/
theorem C7_negative_cap_unbounded (N : Nat) :
    ∀ fuel : Nat, ∀ ms : List Machine, ∀ cap : Int, ∀ t t' : Nat,
      cap < 0 → runLoop N fuel ms cap t ≠ some (DriverResult.capped t') := by
  intro fuel
  induction fuel with
  | zero =>
    intro ms cap t t' hc
    simp [runLoop]
  | succ fuel ih =>
    intro ms cap t t' hc
    rw [runLoop, if_neg (by omega)]
    dsimp only
    split
    · simp
    · have hsame : (if cap > 0 then cap - 1 else cap) = cap := by omega
      rw [hsame]
      exact ih _ _ _ _ hc

/-- Claim C7 witness: the default cap `-1` cannot report `capped` on the
`N = 1` run. -/
theorem C7_negative_cap_unbounded_witness :
    runLoop 1 3 (initMachines 1) (-1) 1 ≠ some (DriverResult.capped 7) :=
  C7_negative_cap_unbounded 1 3 (initMachines 1) (-1) 1 7 (by norm_num)

/-- Claim C7 counterexample: the cap value 0 is non-positive, yet it
stops the loop immediately (line 245 breaks before any step), even
though the firing condition does not hold on the initial `N = 3`
snapshot — refuting "non-positive caps never stop the loop". -/
theorem C7_counterexample :
    fsMain 3 0 10 = MainResult.ran (some (DriverResult.capped 1)) ∧
    fireCond (initMachines 3) = false := by
  constructor
  · decide
  · decide

/-- Claim C8 (amended): for `N = 1` the single machine satisfies the
firing condition already in the initial snapshot, the driver fires at
its first post-step check, and — because the step counter `t` starts at
1 and is only incremented after a non-firing iteration — the reported
step count is 1, not 0. -/
theorem C8_length_one_fires (cap : Int) (fuel : Nat) (hc : cap ≠ 0) :
    runLoop 1 (fuel + 1) (initMachines 1) cap 1 =
      some (DriverResult.fired 1) ∧
    fireCond (initMachines 1) = true := by
  constructor
  · rw [runLoop, if_neg hc]
    dsimp only
    rw [if_pos (by decide)]
  · decide

/-- Claim C8 witness: the amended statement at the default cap `-1`. -/
theorem C8_length_one_fires_witness :
    runLoop 1 3 (initMachines 1) (-1) 1 = some (DriverResult.fired 1) ∧
    fireCond (initMachines 1) = true :=
  C8_length_one_fires (-1) 2 (by norm_num)

/-- Claim C8 counterexample: the `N = 1` simulation reports
synchronization at step count 1, not the claimed 0. -/
theorem C8_counterexample :
    fsMain 1 (-1) 3 = MainResult.ran (some (DriverResult.fired 1)) ∧
    fsMain 1 (-1) 3 ≠ MainResult.ran (some (DriverResult.fired 0)) := by
  constructor
  · decide
  · decide

/-- Claim C9: the simulation starts exactly for `1 ≤ N ≤ 1024`
(`MAX_LENGTH`): outside that range `main` reports the configuration
error and no machine is instantiated and no step runs; inside it the
machines are initialized and the driver loop runs. -/
theorem C9_length_check (n cap : Int) (fuel : Nat) :
    (fsMain n cap fuel = MainResult.configError ↔ (n ≤ 0 ∨ 1024 < n)) ∧
    (1 ≤ n → n ≤ 1024 →
      fsMain n cap fuel =
        MainResult.ran (runLoop n.toNat fuel (initMachines n.toNat) cap 1)) := by
  have hM : (MAX_LENGTH : Int) = 1024 := by norm_num [MAX_LENGTH]
  constructor
  · constructor
    · intro he
      by_contra hn
      push_neg at hn
      rw [fsMain, if_neg (by omega)] at he
      exact MainResult.noConfusion he
    · intro h
      rw [fsMain, if_pos (by omega)]
  · intro h1 h2
    rw [fsMain, if_neg (by omega)]

/-- Claim C9 witness: `N = 3` passes the check and runs; `N = 2000`
is rejected. -/
theorem C9_length_check_witness :
    fsMain 3 (-1) 2 =
      MainResult.ran (runLoop 3 2 (initMachines 3) (-1) 1) ∧
    fsMain 2000 (-1) 2 = MainResult.configError :=
  ⟨(C9_length_check 3 (-1) 2).2 (by norm_num) (by norm_num),
   (C9_length_check 2000 (-1) 2).1.mpr (by norm_num)⟩

/-- Claim C10: in every reachable snapshot the machines at positions 0
and `N-1` have type `GENERAL` (the type field is only ever set to
`GENERAL` after initialization, never to `SOLDIER`), so the soldier
branch of `update_state` — which reads both neighbors unconditionally —
runs only for interior positions, whose neighbor indices `j-1` and
`j+1` lie within `0‥N-1`. -/
theorem C10_soldier_interior (N t : Nat) (hN : 1 ≤ N) :
    (nth (snapRun N t) 0).type = GENERAL ∧
    (nth (snapRun N t) (N - 1)).type = GENERAL ∧
    ∀ j, j < N → (nth (snapRun N t) j).type = SOLDIER →
      1 ≤ j ∧ j + 1 < N := by
  obtain ⟨h0, h1⟩ := endpoints_general N t hN
  refine ⟨h0, h1, ?_⟩
  intro j hj hs
  constructor
  · rcases Nat.eq_zero_or_pos j with rfl | hp
    · rw [h0] at hs
      exact absurd hs (by decide)
    · exact hp
  · by_cases he : j = N - 1
    · subst he
      rw [h1] at hs
      exact absurd hs (by decide)
    · omega

/-- Claim C10 witness: the interior-soldier property in the `N = 3` run
after one step. -/
theorem C10_soldier_interior_witness :
    (nth (snapRun 3 1) 0).type = GENERAL ∧
    (nth (snapRun 3 1) 2).type = GENERAL ∧
    ∀ j, j < 3 → (nth (snapRun 3 1) j).type = SOLDIER →
      1 ≤ j ∧ j + 1 < 3 :=
  C10_soldier_interior 3 1 (by omega)

end Fsquad
